import Mathlib

/-
Verification of the aws-quicksight automation script
(src/quicksight-technical.py).

The script is straight-line glue code: five functions, each of which
assembles a constant, JSON-shaped request payload and hands it to a
boto3 client call, returning whatever the client returns.  We embed the
payloads as values of a JSON-like inductive type `JVal`, and each
builder function as a function of the provider call it performs
(`Client` maps a request payload to `Except PyErr JVal`, modelling the
response or the raised exception).  `get_dashboard_url` additionally
indexes the response with `['EmbedUrl']`, which in Python raises
`KeyError` when the key is absent; `JVal.getItem` models the subscript.
-/

namespace QS

/-- JSON-shaped values, as assembled by the script: strings, integers,
booleans, lists and (insertion-ordered) dicts with string keys. -/
inductive JVal where
  | str : String → JVal
  | nat : Nat → JVal
  | bool : Bool → JVal
  | arr : List JVal → JVal
  | obj : List (String × JVal) → JVal

/-- First-match association-list lookup over an object's fields. -/
def lookupFields : List (String × JVal) → String → Option JVal
  | [], _ => none
  | (k', v) :: fs, k => if k' = k then some v else lookupFields fs k

/-- Top-level dict lookup; `none` on a non-object or a missing key. -/
def JVal.lookup : JVal → String → Option JVal
  | .obj fs, k => lookupFields fs k
  | _, _ => none

/-- Follow a path of keys through nested objects. -/
def JVal.getPath : JVal → List String → Option JVal
  | v, [] => some v
  | v, k :: ks =>
    match v.lookup k with
    | some w => JVal.getPath w ks
    | none => none

mutual
/-- Number of occurrences of the string `s` anywhere inside `v`, as a
string leaf or as an object key. -/
def countStr (s : String) : JVal → Nat
  | .str t => if t = s then 1 else 0
  | .nat _ => 0
  | .bool _ => 0
  | .arr xs => countStrList s xs
  | .obj fs => countStrFields s fs

/-- Occurrences of `s` inside each value of a list, summed. -/
def countStrList (s : String) : List JVal → Nat
  | [] => 0
  | v :: vs => countStr s v + countStrList s vs

/-- Occurrences of `s` inside an object's field list, keys included. -/
def countStrFields (s : String) : List (String × JVal) → Nat
  | [] => 0
  | (k, v) :: fs =>
    (if k = s then 1 else 0) + countStr s v + countStrFields s fs
end

mutual
/-- Whether the key `k` appears as an object key anywhere inside `v`. -/
def hasKeyDeep (k : String) : JVal → Bool
  | .str _ => false
  | .nat _ => false
  | .bool _ => false
  | .arr xs => hasKeyDeepList k xs
  | .obj fs => hasKeyDeepFields k fs

/-- Whether `k` appears as an object key anywhere inside a list. -/
def hasKeyDeepList (k : String) : List JVal → Bool
  | [] => false
  | v :: vs => hasKeyDeep k v || hasKeyDeepList k vs

/-- Whether `k` appears as a key of this field list or deeper. -/
def hasKeyDeepFields (k : String) : List (String × JVal) → Bool
  | [] => false
  | (k', v) :: fs => k' = k || hasKeyDeep k v || hasKeyDeepFields k fs
end

/-- Exceptions a call may surface: an error raised by the client
library, or a Python `KeyError` from a dict subscript. -/
inductive PyErr where
  | clientError : String → PyErr
  | keyError : String → PyErr

/-- A provider call: maps the request payload to the response, or to
the exception the client raises. -/
abbrev Client := JVal → Except PyErr JVal

/-- Python dict subscript `v[k]`: the value, or `KeyError` if absent. -/
def JVal.getItem (v : JVal) (k : String) : Except PyErr JVal :=
  match v.lookup k with
  | some w => .ok w
  | none => .error (.keyError k)

/-- Split a list of characters into space-separated fields. -/
def splitFieldsAux : List Char → List Char → List (List Char)
  | [], acc => [acc.reverse]
  | c :: cs, acc =>
    if c = ' ' then acc.reverse :: splitFieldsAux cs []
    else splitFieldsAux cs (c :: acc)

/-- The space-separated tokens of a string. -/
def spaceTokens (s : String) : List String :=
  (splitFieldsAux s.data []).map (fun cs => String.mk cs)

/-- Whether `s` has the shape of an AWS cron schedule expression:
the literal text `cron(` around a body of six space-separated fields. -/
def isCronShaped (s : String) : Bool :=
  match s.data with
  | 'c' :: 'r' :: 'o' :: 'n' :: '(' :: rest =>
    match rest.reverse with
    | ')' :: bodyRev => (splitFieldsAux bodyRev.reverse []).length == 6
    | _ => false
  | _ => false

/-- The column names an arithmetic expression string references,
modelled as its space-separated tokens minus the operator tokens. -/
def exprIdentifiers (e : String) : List String :=
  (spaceTokens e).filter (fun t => decide (t ≠ "+") && decide (t ≠ "-")
    && decide (t ≠ "*") && decide (t ≠ "/"))

/-- The `Name` entries of a physical table's `InputColumns` list. -/
def inputColumnNames (pt : JVal) : List String :=
  match pt.getPath ["RelationalTable", "InputColumns"] with
  | some (.arr cols) =>
    cols.filterMap (fun c =>
      match c.lookup "Name" with
      | some (.str n) => some n
      | _ => none)
  | _ => []

/-- The module-level IAM policy document for the QuickSight role. -/
def quicksight_role_policy : JVal := .obj [
  ("Version", .str "2012-10-17"),
  ("Statement", .arr [
    .obj [
      ("Effect", .str "Allow"),
      ("Action", .arr [
        .str "s3:GetObject",
        .str "s3:ListBucket",
        .str "athena:StartQueryExecution",
        .str "athena:GetQueryResults"]),
      ("Resource", .arr [
        .str "arn:aws:s3:::your-bucket/*",
        .str "arn:aws:athena:*"])]])]

/-- The keyword arguments of the `glue.create_crawler` call. -/
def create_crawler_request : JVal := .obj [
  ("Name", .str "sales_data_crawler"),
  ("Role", .str "AWSGlueServiceRole"),
  ("DatabaseName", .str "sales_db"),
  ("Targets", .obj [
    ("S3Targets", .arr [
      .obj [("Path", .str "s3://your-bucket/sales-data/")]])]),
  ("Schedule", .str "cron(0 0 * * ? *)")]

/-- `create_glue_crawler`: sends the constant crawler request and
returns the provider response unmodified. -/
def create_glue_crawler (create_crawler : Client) : Except PyErr JVal :=
  create_crawler create_crawler_request

/-- The local `physical_table` dict of `create_quicksight_dataset`.
It is assembled by the function but never placed in the request. -/
def physical_table : JVal := .obj [
  ("RelationalTable", .obj [
    ("DataSourceArn", .str "arn:aws:quicksight:region:account:datasource/source-id"),
    ("Schema", .str "sales_db"),
    ("Name", .str "sales_table"),
    ("InputColumns", .arr [
      .obj [("Name", .str "sale_date"), ("Type", .str "DATETIME")],
      .obj [("Name", .str "product_id"), ("Type", .str "STRING")],
      .obj [("Name", .str "quantity"), ("Type", .str "INTEGER")],
      .obj [("Name", .str "revenue"), ("Type", .str "DECIMAL")]])])]

/-- The local `logical_table` dict of `create_quicksight_dataset`. -/
def logical_table : JVal := .obj [
  ("Alias", .str "sales_analysis"),
  ("DataTransforms", .arr [
    .obj [("CreateColumnsOperation", .obj [
      ("Columns", .arr [
        .obj [
          ("ColumnName", .str "unit_price"),
          ("ColumnId", .str "unit_price"),
          ("Expression", .str "revenue / quantity")]])])]])]

/-- The keyword arguments of the `quicksight.create_data_set` call. -/
def create_data_set_request : JVal := .obj [
  ("AwsAccountId", .str "your-account-id"),
  ("DataSetId", .str "sales_dataset"),
  ("Name", .str "Sales Analysis Dataset"),
  ("PhysicalTableId", .str "sales_table"),
  ("LogicalTableMap", .obj [("sales_table", logical_table)]),
  ("ImportMode", .str "SPICE"),
  ("RefreshSchedule", .obj [
    ("Schedule", .str "cron(0 0 * * ? *)"),
    ("RefreshType", .str "INCREMENTAL_REFRESH"),
    ("IncrementalRefreshProperties", .obj [
      ("LookbackWindow", .nat 1),
      ("LookbackWindowUnit", .str "DAYS")])])]

/-- `create_quicksight_dataset`: sends the constant dataset request and
returns the provider response unmodified. -/
def create_quicksight_dataset (create_data_set : Client) : Except PyErr JVal :=
  create_data_set create_data_set_request

/-- The local `sheet_definition` dict of `create_analysis`. -/
def sheet_definition : JVal := .obj [
  ("Visuals", .arr [
    .obj [("LineChartVisual", .obj [
      ("Title", .obj [("Visible", .bool true), ("Text", .str "Sales Trend")]),
      ("XAxis", .obj [("FieldId", .str "sale_date")]),
      ("YAxis", .obj [("FieldId", .str "revenue")]),
      ("Legend", .obj [("Visible", .bool true), ("Position", .str "RIGHT")]),
      ("DataLabels", .obj [("Visible", .bool true)]),
      ("Actions", .arr [
        .obj [
          ("ActionOperations", .arr [
            .obj [("DrillDownOperation", .obj [
              ("TargetVisual", .str "product_details")])]]),
          ("Triggers", .arr [.str "CLICK"])]])])]])]

/-- The keyword arguments of the `quicksight.create_analysis` call. -/
def create_analysis_request : JVal := .obj [
  ("AwsAccountId", .str "your-account-id"),
  ("AnalysisId", .str "sales_analysis"),
  ("Name", .str "Sales Analysis"),
  ("Definition", sheet_definition),
  ("Permissions", .arr [
    .obj [
      ("Principal", .str "arn:aws:quicksight:region:account:user/default/user1"),
      ("Actions", .arr [
        .str "quicksight:DescribeAnalysis",
        .str "quicksight:UpdateAnalysis"])]])]

/-- `create_analysis`: sends the constant analysis request and returns
the provider response unmodified. -/
def create_analysis (call : Client) : Except PyErr JVal :=
  call create_analysis_request

/-- The keyword arguments of the `quicksight.create_dashboard` call. -/
def create_dashboard_request : JVal := .obj [
  ("AwsAccountId", .str "your-account-id"),
  ("DashboardId", .str "sales_dashboard"),
  ("Name", .str "Sales Dashboard"),
  ("Permissions", .arr [
    .obj [
      ("Principal", .str "arn:aws:quicksight:region:account:group/default/analysts"),
      ("Actions", .arr [
        .str "quicksight:DescribeDashboard",
        .str "quicksight:ListDashboardVersions",
        .str "quicksight:QueryDashboard"])]]),
  ("SourceEntity", .obj [
    ("SourceTemplate", .obj [
      ("DataSetReferences", .arr [
        .obj [
          ("DataSetPlaceholder", .str "sales_data"),
          ("DataSetArn", .str "arn:aws:quicksight:region:account:dataset/sales_dataset")]]),
      ("Arn", .str "arn:aws:quicksight:region:account:template/sales_template")])]),
  ("VersionDescription", .str "Initial version")]

/-- `publish_dashboard`: sends the constant dashboard request and
returns the provider response unmodified. -/
def publish_dashboard (create_dashboard : Client) : Except PyErr JVal :=
  create_dashboard create_dashboard_request

/-- The keyword arguments of `quicksight.get_dashboard_embed_url`. -/
def get_dashboard_embed_url_request : JVal := .obj [
  ("AwsAccountId", .str "your-account-id"),
  ("DashboardId", .str "sales_dashboard"),
  ("IdentityType", .str "IAM"),
  ("SessionLifetimeInMinutes", .nat 600),
  ("UndoRedoDisabled", .bool false),
  ("ResetDisabled", .bool false)]

/-- `get_dashboard_url`: sends the constant embed request and returns
`response['EmbedUrl']`; a raised client error propagates, and a missing
key raises `KeyError` as the Python subscript would. -/
def get_dashboard_url (get_dashboard_embed_url : Client) : Except PyErr JVal :=
  match get_dashboard_embed_url get_dashboard_embed_url_request with
  | .ok response => response.getItem "EmbedUrl"
  | .error e => .error e

/-- Every constant data structure the script builds, each listed once:
the module-level policy document, the five request payloads (which
contain the nested `logical_table` and `sheet_definition` dicts), and
the unused `physical_table` dict. -/
def allScriptValues : List JVal :=
  [quicksight_role_policy, create_crawler_request, physical_table,
   create_data_set_request, create_analysis_request,
   create_dashboard_request, get_dashboard_embed_url_request]

/-- Helper: on a successful provider call, `get_dashboard_url` returns
the response indexed at the `EmbedUrl` key. -/
theorem get_dashboard_url_ok (c : Client) (r : JVal)
    (h : c get_dashboard_embed_url_request = .ok r) :
    get_dashboard_url c = r.getItem "EmbedUrl" := by
  unfold get_dashboard_url
  rw [h]

/-- Helper: indexing a value that has the key yields the field. -/
theorem getItem_of_lookup_some (r u : JVal) (k : String)
    (h : r.lookup k = some u) : r.getItem k = .ok u := by
  unfold JVal.getItem
  rw [h]

/-- Helper: indexing a value lacking the key raises `KeyError`. -/
theorem getItem_of_lookup_none (r : JVal) (k : String)
    (h : r.lookup k = none) : r.getItem k = .error (.keyError k) := by
  unfold JVal.getItem
  rw [h]

/-- C1: for every invocation, the dataset request built by
`create_quicksight_dataset` contains exactly one logical-table data
transform, a `CreateColumnsOperation` whose single derived column has
`ColumnName` `unit_price` and whose `Expression` string is exactly
`revenue / quantity`. -/
theorem claim_C1 :
    (∀ c : Client, create_quicksight_dataset c = c create_data_set_request) ∧
    ∃ col : JVal,
      create_data_set_request.getPath
          ["LogicalTableMap", "sales_table", "DataTransforms"] =
        some (.arr [.obj [("CreateColumnsOperation",
          .obj [("Columns", .arr [col])])]]) ∧
      col.lookup "ColumnName" = some (.str "unit_price") ∧
      col.lookup "Expression" = some (.str "revenue / quantity") :=
  ⟨fun _ => rfl, _, rfl, rfl, rfl⟩

/-- C2: for every invocation, the dataset request built by
`create_quicksight_dataset` has `ImportMode` equal to `SPICE` and a
refresh schedule whose `RefreshType` is `INCREMENTAL_REFRESH` with an
incremental lookback window of exactly 1 day. -/
theorem claim_C2 :
    (∀ c : Client, create_quicksight_dataset c = c create_data_set_request) ∧
    create_data_set_request.lookup "ImportMode" = some (.str "SPICE") ∧
    create_data_set_request.getPath ["RefreshSchedule", "RefreshType"] =
      some (.str "INCREMENTAL_REFRESH") ∧
    create_data_set_request.getPath
      ["RefreshSchedule", "IncrementalRefreshProperties", "LookbackWindow"] =
      some (.nat 1) ∧
    create_data_set_request.getPath
      ["RefreshSchedule", "IncrementalRefreshProperties", "LookbackWindowUnit"] =
      some (.str "DAYS") :=
  ⟨fun _ => rfl, rfl, rfl, rfl, rfl⟩

/-- C3: for every invocation, the embed-URL request built by
`get_dashboard_url` sets `SessionLifetimeInMinutes` to 600,
`UndoRedoDisabled` to false and `ResetDisabled` to false, and the
function returns the `EmbedUrl` field of the provider's response. -/
theorem claim_C3 :
    get_dashboard_embed_url_request.lookup "SessionLifetimeInMinutes" =
      some (.nat 600) ∧
    get_dashboard_embed_url_request.lookup "UndoRedoDisabled" =
      some (.bool false) ∧
    get_dashboard_embed_url_request.lookup "ResetDisabled" =
      some (.bool false) ∧
    ∀ (c : Client) (response url : JVal),
      c get_dashboard_embed_url_request = .ok response →
      response.lookup "EmbedUrl" = some url →
      get_dashboard_url c = .ok url := by
  refine ⟨rfl, rfl, rfl, ?_⟩
  intro c response url hc hl
  rw [get_dashboard_url_ok c response hc]
  exact getItem_of_lookup_some response url _ hl

/-- C3 witness: a provider response carrying an `EmbedUrl` string is
projected down to that string. -/
theorem claim_C3_witness :
    get_dashboard_url
        (fun _ => .ok (.obj [("EmbedUrl", .str "https://quicksight.example/embed"),
                             ("RequestId", .str "r-1")])) =
      .ok (.str "https://quicksight.example/embed") :=
  claim_C3.2.2.2 _ _ _ rfl rfl

/-- C4: for every invocation, the crawler request built by
`create_glue_crawler` includes exactly one S3 target path
(`s3://your-bucket/sales-data/`), a crawler name, a role, a target
catalog database, and a valid cron schedule expression
(`cron(0 0 * * ? *)`). -/
theorem claim_C4 :
    (∀ c : Client, create_glue_crawler c = c create_crawler_request) ∧
    create_crawler_request.getPath ["Targets", "S3Targets"] =
      some (.arr [.obj [("Path", .str "s3://your-bucket/sales-data/")]]) ∧
    create_crawler_request.lookup "Name" = some (.str "sales_data_crawler") ∧
    create_crawler_request.lookup "Role" = some (.str "AWSGlueServiceRole") ∧
    create_crawler_request.lookup "DatabaseName" = some (.str "sales_db") ∧
    create_crawler_request.lookup "Schedule" =
      some (.str "cron(0 0 * * ? *)") ∧
    isCronShaped "cron(0 0 * * ? *)" = true :=
  ⟨fun _ => rfl, rfl, rfl, rfl, rfl, rfl, rfl⟩

/-- C5: for every invocation, the dashboard request built by
`publish_dashboard` sources from a template and contains exactly one
`DataSetReferences` entry, binding the single placeholder `sales_data`
to a single dataset ARN, together with one group-level permission grant
and a version description. -/
theorem claim_C5 :
    (∀ c : Client, publish_dashboard c = c create_dashboard_request) ∧
    create_dashboard_request.getPath ["SourceEntity", "SourceTemplate", "Arn"] =
      some (.str "arn:aws:quicksight:region:account:template/sales_template") ∧
    create_dashboard_request.getPath
        ["SourceEntity", "SourceTemplate", "DataSetReferences"] =
      some (.arr [.obj [
        ("DataSetPlaceholder", .str "sales_data"),
        ("DataSetArn", .str "arn:aws:quicksight:region:account:dataset/sales_dataset")]]) ∧
    (∃ perm : JVal,
      create_dashboard_request.lookup "Permissions" = some (.arr [perm]) ∧
      perm.lookup "Principal" =
        some (.str "arn:aws:quicksight:region:account:group/default/analysts")) ∧
    create_dashboard_request.lookup "VersionDescription" =
      some (.str "Initial version") :=
  ⟨fun _ => rfl, rfl, rfl, ⟨_, rfl, rfl⟩, rfl⟩

/-- C6: for every invocation, the analysis definition built by
`create_analysis` contains exactly one visual, a line chart with axis
field bindings, visible legend and data labels, and a click-triggered
drill-down action whose `TargetVisual` is the id `product_details`,
which is not defined by any visual anywhere in the script (it occurs
exactly once, as that action target, and no value in the script defines
a `VisualId`); the request also attaches a permission grant for exactly
one principal. -/
theorem claim_C6 :
    (∀ c : Client, create_analysis c = c create_analysis_request) ∧
    (∃ lineChart : JVal,
      create_analysis_request.getPath ["Definition", "Visuals"] =
        some (.arr [.obj [("LineChartVisual", lineChart)]]) ∧
      lineChart.getPath ["XAxis", "FieldId"] = some (.str "sale_date") ∧
      lineChart.getPath ["YAxis", "FieldId"] = some (.str "revenue") ∧
      lineChart.getPath ["Legend", "Visible"] = some (.bool true) ∧
      lineChart.getPath ["DataLabels", "Visible"] = some (.bool true) ∧
      ∃ action : JVal,
        lineChart.lookup "Actions" = some (.arr [action]) ∧
        action.lookup "Triggers" = some (.arr [.str "CLICK"]) ∧
        action.lookup "ActionOperations" =
          some (.arr [.obj [("DrillDownOperation",
            .obj [("TargetVisual", .str "product_details")])]])) ∧
    countStrList "product_details" allScriptValues = 1 ∧
    hasKeyDeepList "VisualId" allScriptValues = false ∧
    (∃ perm : JVal,
      create_analysis_request.lookup "Permissions" = some (.arr [perm]) ∧
      perm.lookup "Principal" =
        some (.str "arn:aws:quicksight:region:account:user/default/user1")) :=
  ⟨fun _ => rfl,
   ⟨_, rfl, rfl, rfl, rfl, rfl, _, rfl, rfl, rfl⟩,
   rfl, rfl, ⟨_, rfl, rfl⟩⟩

/-- C7: each of the five builder functions is deterministic — its
result depends on the provider only through the provider's value at the
one constant request payload it assembles, so two invocations against
providers that answer that payload identically give identical results. -/
theorem claim_C7 :
    (∀ c1 c2 : Client,
      c1 create_crawler_request = c2 create_crawler_request →
      create_glue_crawler c1 = create_glue_crawler c2) ∧
    (∀ c1 c2 : Client,
      c1 create_data_set_request = c2 create_data_set_request →
      create_quicksight_dataset c1 = create_quicksight_dataset c2) ∧
    (∀ c1 c2 : Client,
      c1 create_analysis_request = c2 create_analysis_request →
      create_analysis c1 = create_analysis c2) ∧
    (∀ c1 c2 : Client,
      c1 create_dashboard_request = c2 create_dashboard_request →
      publish_dashboard c1 = publish_dashboard c2) ∧
    (∀ c1 c2 : Client,
      c1 get_dashboard_embed_url_request = c2 get_dashboard_embed_url_request →
      get_dashboard_url c1 = get_dashboard_url c2) := by
  refine ⟨fun c1 c2 h => h, fun c1 c2 h => h, fun c1 c2 h => h,
    fun c1 c2 h => h, ?_⟩
  intro c1 c2 h
  unfold get_dashboard_url
  rw [h]

/-- C7 witness: two syntactically different providers agreeing on each
constant request produce equal results for every builder. -/
theorem claim_C7_witness :
    create_glue_crawler (fun _ => .ok (.nat 1)) =
      create_glue_crawler (fun _ => .ok (.nat (0 + 1))) ∧
    create_quicksight_dataset (fun _ => .ok (.nat 1)) =
      create_quicksight_dataset (fun _ => .ok (.nat (0 + 1))) ∧
    create_analysis (fun _ => .ok (.nat 1)) =
      create_analysis (fun _ => .ok (.nat (0 + 1))) ∧
    publish_dashboard (fun _ => .ok (.nat 1)) =
      publish_dashboard (fun _ => .ok (.nat (0 + 1))) ∧
    get_dashboard_url (fun _ => .ok (.nat 1)) =
      get_dashboard_url (fun _ => .ok (.nat (0 + 1))) :=
  ⟨claim_C7.1 _ _ rfl, claim_C7.2.1 _ _ rfl, claim_C7.2.2.1 _ _ rfl,
   claim_C7.2.2.2.1 _ _ rfl, claim_C7.2.2.2.2 _ _ rfl⟩

/-- C8: no builder handles errors — for every builder, if the
underlying client call raises an error, that exact error propagates
unchanged to the caller. -/
theorem claim_C8 :
    ∀ e : PyErr,
    (∀ c : Client, c create_crawler_request = .error e →
      create_glue_crawler c = .error e) ∧
    (∀ c : Client, c create_data_set_request = .error e →
      create_quicksight_dataset c = .error e) ∧
    (∀ c : Client, c create_analysis_request = .error e →
      create_analysis c = .error e) ∧
    (∀ c : Client, c create_dashboard_request = .error e →
      publish_dashboard c = .error e) ∧
    (∀ c : Client, c get_dashboard_embed_url_request = .error e →
      get_dashboard_url c = .error e) := by
  intro e
  refine ⟨fun c h => h, fun c h => h, fun c h => h, fun c h => h, ?_⟩
  intro c h
  unfold get_dashboard_url
  rw [h]

/-- C8 witness: a client raising an access-denied error makes every
builder surface exactly that error. -/
theorem claim_C8_witness :
    create_glue_crawler (fun _ => .error (.clientError "AccessDeniedException")) =
      .error (.clientError "AccessDeniedException") ∧
    create_quicksight_dataset (fun _ => .error (.clientError "AccessDeniedException")) =
      .error (.clientError "AccessDeniedException") ∧
    create_analysis (fun _ => .error (.clientError "AccessDeniedException")) =
      .error (.clientError "AccessDeniedException") ∧
    publish_dashboard (fun _ => .error (.clientError "AccessDeniedException")) =
      .error (.clientError "AccessDeniedException") ∧
    get_dashboard_url (fun _ => .error (.clientError "AccessDeniedException")) =
      .error (.clientError "AccessDeniedException") :=
  ⟨(claim_C8 _).1 _ rfl, (claim_C8 _).2.1 _ rfl, (claim_C8 _).2.2.1 _ rfl,
   (claim_C8 _).2.2.2.1 _ rfl, (claim_C8 _).2.2.2.2 _ rfl⟩

/-- C9 counterexample: the dataset request built by
`create_quicksight_dataset` declares no `InputColumns` (and no physical
table schema) at all — the `physical_table` dict is assembled but never
placed in the request, which passes only `PhysicalTableId` — so the
referenced columns are not "declared as an InputColumn of the physical
table in the same request". -/
theorem claim_C9_counterexample :
    hasKeyDeep "InputColumns" create_data_set_request = false ∧
    hasKeyDeep "PhysicalTableMap" create_data_set_request = false ∧
    create_data_set_request.lookup "PhysicalTableId" =
      some (.str "sales_table") :=
  ⟨rfl, rfl, rfl⟩

/-- C9 amended: every column name referenced by the derived-column
expression `revenue / quantity` is declared as an `InputColumn` of the
local `physical_table` structure the function assembles (`revenue` as
DECIMAL, `quantity` as INTEGER) — but that structure is not part of the
dataset request, which carries only `PhysicalTableId`, so the schema
consistency holds between the script's local table definition and the
expression, not inside the request payload itself. -/
theorem claim_C9_amended :
    physical_table.getPath ["RelationalTable", "InputColumns"] =
      some (.arr [
        .obj [("Name", .str "sale_date"), ("Type", .str "DATETIME")],
        .obj [("Name", .str "product_id"), ("Type", .str "STRING")],
        .obj [("Name", .str "quantity"), ("Type", .str "INTEGER")],
        .obj [("Name", .str "revenue"), ("Type", .str "DECIMAL")]]) ∧
    exprIdentifiers "revenue / quantity" = ["revenue", "quantity"] ∧
    ((exprIdentifiers "revenue / quantity").all
      (fun n => (inputColumnNames physical_table).contains n)) = true ∧
    hasKeyDeep "InputColumns" create_data_set_request = false ∧
    create_data_set_request.lookup "PhysicalTableId" =
      some (.str "sales_table") :=
  ⟨rfl, rfl, rfl, rfl, rfl⟩

/-- C10: `get_dashboard_url` is the only builder that projects the
provider's response — it returns exactly the `EmbedUrl` field and
raises `KeyError` when the response lacks that key, while the other
four builders return the full provider response unmodified. -/
theorem claim_C10 :
    (∀ (c : Client) (r : JVal),
      c create_crawler_request = .ok r → create_glue_crawler c = .ok r) ∧
    (∀ (c : Client) (r : JVal),
      c create_data_set_request = .ok r → create_quicksight_dataset c = .ok r) ∧
    (∀ (c : Client) (r : JVal),
      c create_analysis_request = .ok r → create_analysis c = .ok r) ∧
    (∀ (c : Client) (r : JVal),
      c create_dashboard_request = .ok r → publish_dashboard c = .ok r) ∧
    (∀ (c : Client) (r u : JVal),
      c get_dashboard_embed_url_request = .ok r →
      r.lookup "EmbedUrl" = some u → get_dashboard_url c = .ok u) ∧
    (∀ (c : Client) (r : JVal),
      c get_dashboard_embed_url_request = .ok r →
      r.lookup "EmbedUrl" = none →
      get_dashboard_url c = .error (.keyError "EmbedUrl")) := by
  refine ⟨fun c r h => h, fun c r h => h, fun c r h => h, fun c r h => h,
    ?_, ?_⟩
  · intro c r u h hl
    rw [get_dashboard_url_ok c r h]
    exact getItem_of_lookup_some r u _ hl
  · intro c r h hl
    rw [get_dashboard_url_ok c r h]
    exact getItem_of_lookup_none r _ hl

/-- C10 witness: concrete responses — the four creation builders hand
back full responses unchanged; the embed builder projects `EmbedUrl`
and raises `KeyError` when it is missing. -/
theorem claim_C10_witness :
    create_glue_crawler (fun _ => .ok (.obj [("Crawler", .str "sales_data_crawler")])) =
      .ok (.obj [("Crawler", .str "sales_data_crawler")]) ∧
    create_quicksight_dataset (fun _ => .ok (.obj [("Status", .nat 201)])) =
      .ok (.obj [("Status", .nat 201)]) ∧
    create_analysis (fun _ => .ok (.obj [("AnalysisId", .str "sales_analysis")])) =
      .ok (.obj [("AnalysisId", .str "sales_analysis")]) ∧
    publish_dashboard (fun _ => .ok (.obj [("DashboardId", .str "sales_dashboard")])) =
      .ok (.obj [("DashboardId", .str "sales_dashboard")]) ∧
    get_dashboard_url (fun _ => .ok (.obj [("EmbedUrl", .str "https://embed.example"),
                                            ("Status", .nat 200)])) =
      .ok (.str "https://embed.example") ∧
    get_dashboard_url (fun _ => .ok (.obj [("Status", .nat 200)])) =
      .error (.keyError "EmbedUrl") :=
  ⟨claim_C10.1 _ _ rfl, claim_C10.2.1 _ _ rfl, claim_C10.2.2.1 _ _ rfl,
   claim_C10.2.2.2.1 _ _ rfl, claim_C10.2.2.2.2.1 _ _ _ rfl rfl,
   claim_C10.2.2.2.2.2 _ _ rfl rfl⟩

end QS
